import Mathlib

/-!
Shallow embedding of the `myapp` library-management application
(`src/myapp/forms.py`, `src/myapp/views.py`) and proofs of the
specification claims about it.

The Entity Store (Django ORM tables) is modelled as lists of rows; each
queryset operation used by the code (`filter`, `exclude`, `icontains`,
`iexact`, `distinct`, slicing, `Paginator.get_page`) is embedded as an
executable Lean function mirroring its semantics.
-/

namespace MyApp

/-- ASCII lowercasing of one character (`A`–`Z` map to `a`–`z`), the
case-folding Django's `__iexact` / `__icontains` lookups apply. -/
def charLower (c : Char) : Char :=
  if 65 ≤ c.toNat && c.toNat ≤ 90 then Char.ofNat (c.toNat + 32) else c

/-- A string lowercased, as a character list. -/
def strLower (s : String) : List Char :=
  s.toList.map charLower

/-- Case-insensitive equality of strings, mirroring Django's `__iexact`
lookup. -/
def iexact (a b : String) : Bool :=
  strLower a == strLower b

/-- `listStartsWith needle hay` is true when `hay` begins with `needle`. -/
def listStartsWith : List Char → List Char → Bool
  | [], _ => true
  | _ :: _, [] => false
  | a :: as, b :: bs => a == b && listStartsWith as bs

/-- `listContainsSub needle hay` is true when `needle` occurs as a
contiguous sublist of `hay`. -/
def listContainsSub (needle : List Char) : List Char → Bool
  | [] => needle.isEmpty
  | h :: t => listStartsWith needle (h :: t) || listContainsSub needle t

/-- Case-insensitive substring match, mirroring Django's `__icontains`
lookup (SQL `LIKE %needle%` on lowercased operands). -/
def icontains (hay needle : String) : Bool :=
  listContainsSub (strLower needle) (strLower hay)

/-- A row of the `auth_user` table: the fields the claims touch. -/
structure UserRow where
  id : Nat
  username : String
  email : String
  password : String
  deriving Repr, DecidableEq

/-- A row of the `UserProfile` table (`models.UserProfile`): one-to-one
with `UserRow` through `userId`. -/
structure ProfileRow where
  userId : Nat
  address : String
  phoneNumber : String
  deriving Repr, DecidableEq

/-- A row of the `Book` table with its to-one joins (`author.name`,
`category.name`) inlined, as the search code only reads those names. -/
structure BookRow where
  id : Nat
  title : String
  description : String
  authorName : String
  categoryName : String
  deriving Repr, DecidableEq

/-- A row of the `Author` table. -/
structure AuthorRow where
  id : Nat
  name : String
  deriving Repr, DecidableEq

/-- A row of the `Category` table. -/
structure CategoryRow where
  id : Nat
  name : String
  deriving Repr, DecidableEq

/-- The Entity Store: one list of rows per table. -/
structure Store where
  users : List UserRow
  profiles : List ProfileRow
  books : List BookRow
  authors : List AuthorRow
  categories : List CategoryRow
  deriving Repr, DecidableEq

/-- `User.objects.filter(username__iexact=username)`. -/
def usernameIexact (users : List UserRow) (username : String) : List UserRow :=
  users.filter (fun u => iexact u.username username)

/-- `.exclude(id=x)` where `x` is `self.instance.id` when an instance was
given and `None` otherwise; `exclude(id=None)` excludes no row because no
primary key is NULL. -/
def excludeId (rows : List UserRow) (x : Option Nat) : List UserRow :=
  rows.filter (fun u => !(x == some u.id))

/-- `UserProfile` reverse one-to-one access for a user id (the
`userprofile__...` join): at most one row matches. -/
def profileOf (s : Store) (uid : Nat) : Option ProfileRow :=
  s.profiles.find? (fun p => p.userId == uid)

/-- `UserForm.clean_username`: validation error exactly when
`User.objects.filter(username__iexact=username).exclude(id=instance.id
if instance else None).exists()`. -/
def userFormCleanUsernameError (users : List UserRow) (username : String)
    (instanceId : Option Nat) : Bool :=
  !(excludeId (usernameIexact users username) instanceId).isEmpty

/-- `SimpleRegisterForm.clean_username`: validation error exactly when
`User.objects.filter(username__iexact=username).exists()`. -/
def registerCleanUsernameError (users : List UserRow) (username : String) : Bool :=
  !(usernameIexact users username).isEmpty

/-- The shared form-level `clean` check of `UserForm` and
`SimpleRegisterForm`: the "Passwords don't match" error is raised when
`password and password_confirm and password != password_confirm`
(Python truthiness of strings: non-empty). -/
def passwordMismatchError (password passwordConfirm : String) : Bool :=
  !password.isEmpty && !passwordConfirm.isEmpty && password != passwordConfirm

/-- The submitted fields of `UserForm` / `SimpleRegisterForm`. -/
structure UserFormInput where
  username : String
  email : String
  password : String
  passwordConfirm : String
  deriving Repr, DecidableEq

/-- `UserForm.is_valid()`: username required (`CharField` rejects the empty
string) with `max_length=150`; email, password, password_confirm optional;
then `clean_username` and the form-level `clean`. Email well-formedness is
not modelled (no claim touches it). -/
def userFormValid (users : List UserRow) (instanceId : Option Nat)
    (inp : UserFormInput) : Bool :=
  !inp.username.isEmpty && inp.username.length ≤ 150 &&
  !userFormCleanUsernameError users inp.username instanceId &&
  !passwordMismatchError inp.password inp.passwordConfirm

/-- `SimpleRegisterForm.is_valid()`: username, password and
password_confirm are required fields; then `clean_username` and the
form-level `clean`. -/
def simpleRegisterFormValid (users : List UserRow) (inp : UserFormInput) : Bool :=
  !inp.username.isEmpty && inp.username.length ≤ 150 &&
  !inp.password.isEmpty && !inp.passwordConfirm.isEmpty &&
  !registerCleanUsernameError users inp.username &&
  !passwordMismatchError inp.password inp.passwordConfirm

/-- The submitted fields of `UserProfileForm` (the image is not modelled:
no claim touches it). -/
structure ProfileFormInput where
  address : String
  phoneNumber : String
  deriving Repr, DecidableEq

/-- One primitive write step inside a transaction body.
`User.objects.create_user`: inserts the row, or raises `IntegrityError`
when the database-level unique constraint on `username` is violated (or
when the injected failure `fail` models an arbitrary exception during the
step). -/
def createUserStep (s : Store) (u : UserRow) (fail : Bool) : Option Store :=
  if fail || s.users.any (fun r => r.username == u.username || r.id == u.id) then
    none
  else
    some { s with users := s.users ++ [u] }

/-- `UserProfile.objects.get_or_create(user=user)` followed by field
assignment and `profile.save()`, for a user id; `fail` models an
exception raised during this step. -/
def saveProfileStep (s : Store) (p : ProfileRow) (fail : Bool) : Option Store :=
  if fail then
    none
  else
    match s.profiles.find? (fun q => q.userId == p.userId) with
    | some _ =>
        some { s with
                profiles := s.profiles.map (fun q => if q.userId == p.userId then p else q) }
    | none => some { s with profiles := s.profiles ++ [p] }

/-- `with transaction.atomic(): ...` around a body of writes: if the body
raises (returns `none`), every write it made is rolled back and the store
is the pre-request store; the Boolean reports success. -/
def runAtomic (s : Store) (body : Store → Option Store) : Store × Bool :=
  match body s with
  | some s2 => (s2, true)
  | none => (s, false)

/-- The transaction body of `add_user`'s POST branch: `create_user`, then
get-or-create the profile and save its address / phone number. -/
def addUserBody (u : UserRow) (p : ProfileRow) (failCreate failProfile : Bool)
    (s : Store) : Option Store :=
  (createUserStep s u failCreate).bind (fun s1 => saveProfileStep s1 p failProfile)

/-- `views.add_user`, POST branch: validate both forms, then run the
combined write inside `transaction.atomic()`. `newId` is the primary key
the store assigns to the new user; `failCreate` / `failProfile` inject an
exception into the corresponding step. Returns the resulting store and
whether the creation succeeded. -/
def add_user (s : Store) (inp : UserFormInput) (prof : ProfileFormInput)
    (newId : Nat) (generatedPassword : String)
    (failCreate failProfile : Bool) : Store × Bool :=
  if userFormValid s.users none inp then
    let password := if inp.password.isEmpty then generatedPassword else inp.password
    let u : UserRow :=
      { id := newId, username := inp.username, email := inp.email, password := password }
    let p : ProfileRow :=
      { userId := newId, address := prof.address, phoneNumber := prof.phoneNumber }
    runAtomic s (addUserBody u p failCreate failProfile)
  else
    (s, false)

/-- `views.register`, POST branch: validate `SimpleRegisterForm`, then run
`form.save()` (which calls `create_user`) and
`UserProfile.objects.get_or_create(user=user)` inside
`transaction.atomic()`. The freshly created user has no profile row yet,
so get-or-create inserts one with the model's default (empty) fields. -/
def register (s : Store) (inp : UserFormInput) (newId : Nat)
    (failCreate failProfile : Bool) : Store × Bool :=
  if simpleRegisterFormValid s.users inp then
    let u : UserRow :=
      { id := newId, username := inp.username, email := inp.email,
        password := inp.password }
    let p : ProfileRow := { userId := newId, address := "", phoneNumber := "" }
    runAtomic s (addUserBody u p failCreate failProfile)
  else
    (s, false)

/-- `views.edit_user`, POST branch for an existing user `pk`: validate
`UserForm` (with self-exclusion), then update username / email and, only
when a non-empty password was submitted, set the password. Returns the
resulting store and whether the update succeeded. -/
def edit_user (s : Store) (pk : Nat) (inp : UserFormInput)
    (prof : ProfileFormInput) : Store × Bool :=
  match s.users.find? (fun u => u.id == pk) with
  | none => (s, false)
  | some user =>
    if userFormValid s.users (some pk) inp then
      let newUser : UserRow :=
        { id := pk, username := inp.username, email := inp.email,
          password := if inp.password.isEmpty then user.password else inp.password }
      let newProfile : ProfileRow :=
        { userId := pk, address := prof.address, phoneNumber := prof.phoneNumber }
      ({ s with
          users := s.users.map (fun u => if u.id == pk then newUser else u),
          profiles :=
            match s.profiles.find? (fun q => q.userId == pk) with
            | some _ => s.profiles.map (fun q => if q.userId == pk then newProfile else q)
            | none => s.profiles ++ [newProfile] },
        true)
    else
      (s, false)

/-- The outcome `views.delete_user` reports. -/
inductive DeleteOutcome where
  | notFound
  | selfRejected
  | deleted
  | confirmPage
  deriving Repr, DecidableEq

/-- `views.delete_user`: `get_object_or_404`, then the self-deletion guard
(before any method check, so it rejects both GET and POST), then deletion
on POST (cascading to the profile row) or the confirmation page on GET. -/
def delete_user (s : Store) (currentUserId : Nat) (pk : Nat)
    (isPost : Bool) : Store × DeleteOutcome :=
  match s.users.find? (fun u => u.id == pk) with
  | none => (s, .notFound)
  | some _ =>
    if currentUserId == pk then
      (s, .selfRejected)
    else if isPost then
      ({ s with
          users := s.users.filter (fun u => !(u.id == pk)),
          profiles := s.profiles.filter (fun p => !(p.userId == pk)) },
        .deleted)
    else
      (s, .confirmPage)

/-- `django.core.paginator.Paginator.num_pages` with `per_page=10`,
`orphans=0`, `allow_empty_first_page=True`:
`ceil(max(1, count) / 10)`. -/
def numPages (count : Nat) : Nat :=
  (max 1 count + 9) / 10

/-- `Paginator.validate_number` wrapped as in `Paginator.get_page` with
`per_page=10`: a missing or non-integer `page` parameter (`None`)
becomes page 1 (`PageNotAnInteger`); a number below 1 or above
`num_pages` becomes `num_pages` (`EmptyPage`). -/
def getPageNumber (count : Nat) (param : Option Int) : Nat :=
  match param with
  | none => 1
  | some n =>
    if n < 1 then numPages count
    else if n > (numPages count : Int) then numPages count
    else n.toNat

/-- `Paginator.get_page(page_number).object_list` with `per_page=10`:
slice `[(number-1)*10 : number*10]` of the ordered queryset. -/
def getPage {α : Type} (items : List α) (param : Option Int) : List α :=
  let number := getPageNumber items.length param
  (items.drop ((number - 1) * 10)).take 10

/-- The all-fields match of `user_search` with `filter` not one of the
explicit fields: `Q(username__icontains) | Q(email__icontains) |
Q(userprofile__address__icontains) | Q(userprofile__phone_number__icontains)`.
A user with no profile row joins to NULL and fails the profile lookups. -/
def userMatchAll (s : Store) (q : String) (u : UserRow) : Bool :=
  icontains u.username q || icontains u.email q ||
  (match profileOf s u.id with
   | some p => icontains p.address q || icontains p.phoneNumber q
   | none => false)

/-- `views.user_search`: the filtered queryset before pagination (ordering
by `-date_joined` keeps the stored order of `s.users` here). An empty
(stripped) query leaves the queryset unfiltered. -/
def user_search (s : Store) (q : String) (filterType : String) : List UserRow :=
  if q.isEmpty then s.users
  else if filterType == "username" then
    s.users.filter (fun u => icontains u.username q)
  else if filterType == "email" then
    s.users.filter (fun u => icontains u.email q)
  else if filterType == "address" then
    s.users.filter (fun u =>
      match profileOf s u.id with
      | some p => icontains p.address q
      | none => false)
  else
    s.users.filter (userMatchAll s q)

/-- The all-fields match of `book_search` with `filter` not one of the
explicit fields: `Q(title__icontains) | Q(description__icontains) |
Q(author__name__icontains) | Q(category__name__icontains)`. -/
def bookMatchAll (q : String) (b : BookRow) : Bool :=
  icontains b.title q || icontains b.description q ||
  icontains b.authorName q || icontains b.categoryName q

/-- `views.book_search`: the filtered queryset before pagination. -/
def book_search (s : Store) (q : String) (filterType : String) : List BookRow :=
  if q.isEmpty then s.books
  else if filterType == "title" then
    s.books.filter (fun b => icontains b.title q)
  else if filterType == "author" then
    s.books.filter (fun b => icontains b.authorName q)
  else if filterType == "category" then
    s.books.filter (fun b => icontains b.categoryName q)
  else
    s.books.filter (bookMatchAll q)

/-- The user match of the global `search` view: `Q(username__icontains) |
Q(email__icontains) | Q(userprofile__address__icontains)` — note that,
unlike `user_search`, the phone number field is not queried. -/
def globalUserMatch (s : Store) (q : String) (u : UserRow) : Bool :=
  icontains u.username q || icontains u.email q ||
  (match profileOf s u.id with
   | some p => icontains p.address q
   | none => false)

/-- The context the global `search` view renders: one optional result list
per entity type (`None` when that type was not searched). -/
structure SearchContext where
  books : Option (List BookRow)
  users : Option (List UserRow)
  authors : Option (List AuthorRow)
  categories : Option (List CategoryRow)
  deriving Repr, DecidableEq

/-- `views.search`: gated on a non-empty (stripped) query; for each
selected type, filter with that type's match, `.distinct()` (a no-op on
the duplicate-free row lists a relational table yields), and slice the
first 10. -/
def search (s : Store) (q : String) (searchType : String) : SearchContext :=
  if q.isEmpty then
    { books := none, users := none, authors := none, categories := none }
  else
    { books :=
        if searchType == "all" || searchType == "books" then
          some ((s.books.filter (bookMatchAll q)).take 10)
        else none,
      users :=
        if searchType == "all" || searchType == "users" then
          some ((s.users.filter (globalUserMatch s q)).take 10)
        else none,
      authors :=
        if searchType == "all" || searchType == "authors" then
          some ((s.authors.filter (fun a => icontains a.name q)).take 10)
        else none,
      categories :=
        if searchType == "all" || searchType == "categories" then
          some ((s.categories.filter (fun c => icontains c.name q)).take 10)
        else none }

/-! ## Helper lemmas -/

/-- A filtered list is nonempty exactly when some element passes the
filter. -/
theorem filter_not_isEmpty_iff {α : Type} (l : List α) (p : α → Bool) :
    (!(l.filter p).isEmpty) = true ↔ ∃ a ∈ l, p a = true := by
  rw [Bool.not_eq_true', List.isEmpty_eq_false_iff_exists_mem]
  constructor
  · rintro ⟨a, ha⟩
    rw [List.mem_filter] at ha
    exact ⟨a, ha.1, ha.2⟩
  · rintro ⟨a, ha, hp⟩
    exact ⟨a, List.mem_filter.mpr ⟨ha, hp⟩⟩

/-- When the user+profile write sequence commits, the committed state
holds the new user row and a profile row for the same user id. -/
theorem addUserBody_some_spec (s s2 : Store) (u : UserRow) (p : ProfileRow)
    (fc fp : Bool) (h : addUserBody u p fc fp s = some s2) :
    u ∈ s2.users ∧ ∃ pr ∈ s2.profiles, pr.userId = p.userId := by
  unfold addUserBody createUserStep at h
  by_cases hc : (fc || s.users.any fun r => r.username == u.username || r.id == u.id) = true
  · rw [if_pos hc] at h
    simp at h
  · rw [if_neg hc, Option.some_bind] at h
    unfold saveProfileStep at h
    by_cases hf : fp = true
    · rw [if_pos hf] at h
      simp at h
    · rw [if_neg hf] at h
      cases hfind : ({ s with users := s.users ++ [u] } : Store).profiles.find?
          (fun q => q.userId == p.userId) with
      | none =>
        rw [hfind] at h
        cases h
        exact ⟨by simp, p, by simp, rfl⟩
      | some q =>
        have hqmem : q ∈ s.profiles := List.mem_of_find?_eq_some hfind
        have hqid : (q.userId == p.userId) = true := by
          simpa using List.find?_some hfind
        rw [hfind] at h
        cases h
        refine ⟨by simp, p, ?_, rfl⟩
        simp only
        refine List.mem_map.mpr ⟨q, hqmem, ?_⟩
        simp [hqid]

/-- The transaction wrapper around the user+profile write sequence either
leaves the store untouched (rollback) or commits a state holding the new
user together with a profile row for it. -/
theorem runAtomic_addUserBody_spec (s : Store) (u : UserRow) (p : ProfileRow)
    (fc fp : Bool) :
    ((runAtomic s (addUserBody u p fc fp)).2 = false →
      (runAtomic s (addUserBody u p fc fp)).1 = s)
    ∧ ((runAtomic s (addUserBody u p fc fp)).2 = true →
      u ∈ (runAtomic s (addUserBody u p fc fp)).1.users ∧
      ∃ pr ∈ (runAtomic s (addUserBody u p fc fp)).1.profiles, pr.userId = p.userId) := by
  unfold runAtomic
  cases hb : addUserBody u p fc fp s with
  | none => simp
  | some s2 =>
    refine ⟨fun h => absurd h (by simp), fun _ => ?_⟩
    simpa using addUserBody_some_spec s s2 u p fc fp hb

/-! ## Claims -/

/-- C1: across user creation, registration and user edit validation, the
duplicate-username error fires exactly when another User record (the
edited record itself excluded) has a case-insensitively equal username;
in particular keeping one's own username in any casing on edit does not
trigger the error. -/
theorem C1_username_uniqueness (users : List UserRow) (username : String)
    (instanceId : Option Nat) :
    (userFormCleanUsernameError users username instanceId = true ↔
      ∃ row ∈ users, iexact row.username username = true ∧ instanceId ≠ some row.id)
    ∧ (registerCleanUsernameError users username = true ↔
      ∃ row ∈ users, iexact row.username username = true) := by
  constructor
  · rw [userFormCleanUsernameError, excludeId, usernameIexact, List.filter_filter,
      filter_not_isEmpty_iff]
    constructor
    · rintro ⟨row, hmem, hp⟩
      simp only [Bool.and_eq_true, Bool.not_eq_true', beq_eq_false_iff_ne] at hp
      exact ⟨row, hmem, hp.2, hp.1⟩
    · rintro ⟨row, hmem, hex, hne⟩
      refine ⟨row, hmem, ?_⟩
      simp only [Bool.and_eq_true, Bool.not_eq_true', beq_eq_false_iff_ne]
      exact ⟨hne, hex⟩
  · rw [registerCleanUsernameError, usernameIexact, filter_not_isEmpty_iff]

/-- C2: in both the administrative `add_user` flow and `register`, the
combined User+UserProfile write is atomic: on failure the store is exactly
the pre-request store; on success the new user row is persisted together
with a profile row for it, so no User exists without its UserProfile. -/
theorem C2_user_creation_atomic (s : Store) (inp : UserFormInput)
    (prof : ProfileFormInput) (newId : Nat) (genPw : String) (fc fp : Bool) :
    (((add_user s inp prof newId genPw fc fp).2 = false →
        (add_user s inp prof newId genPw fc fp).1 = s)
      ∧ ((add_user s inp prof newId genPw fc fp).2 = true →
        (∃ u ∈ (add_user s inp prof newId genPw fc fp).1.users,
            u.id = newId ∧ u.username = inp.username) ∧
        ∃ pr ∈ (add_user s inp prof newId genPw fc fp).1.profiles, pr.userId = newId))
    ∧ (((register s inp newId fc fp).2 = false →
        (register s inp newId fc fp).1 = s)
      ∧ ((register s inp newId fc fp).2 = true →
        (∃ u ∈ (register s inp newId fc fp).1.users,
            u.id = newId ∧ u.username = inp.username) ∧
        ∃ pr ∈ (register s inp newId fc fp).1.profiles, pr.userId = newId)) := by
  constructor
  · unfold add_user
    by_cases hv : userFormValid s.users none inp = true
    · rw [if_pos hv]
      refine ⟨(runAtomic_addUserBody_spec s _ _ fc fp).1, fun h2 => ?_⟩
      obtain ⟨hu, pr, hpr, hid⟩ := (runAtomic_addUserBody_spec s _ _ fc fp).2 h2
      exact ⟨⟨_, hu, rfl, rfl⟩, pr, hpr, hid⟩
    · rw [if_neg hv]
      exact ⟨fun _ => rfl, fun h2 => absurd h2 (by simp)⟩
  · unfold register
    by_cases hv : simpleRegisterFormValid s.users inp = true
    · rw [if_pos hv]
      refine ⟨(runAtomic_addUserBody_spec s _ _ fc fp).1, fun h2 => ?_⟩
      obtain ⟨hu, pr, hpr, hid⟩ := (runAtomic_addUserBody_spec s _ _ fc fp).2 h2
      exact ⟨⟨_, hu, rfl, rfl⟩, pr, hpr, hid⟩
    · rw [if_neg hv]
      exact ⟨fun _ => rfl, fun h2 => absurd h2 (by simp)⟩

/-- An empty Entity Store. -/
def emptyStore : Store := ⟨[], [], [], [], []⟩

/-- A concrete well-formed form submission. -/
def demoInp : UserFormInput := ⟨"alice", "alice@mail.com", "pw1", "pw1"⟩

/-- C2 witness: with an injected failure in `create_user` the store is
unchanged; with no failure, registration persists the profile row. -/
theorem C2_user_creation_atomic_witness :
    (add_user emptyStore demoInp ⟨"addr", "555"⟩ 1 "gen" true false).1 = emptyStore ∧
    ∃ pr ∈ (register emptyStore demoInp 1 false false).1.profiles, pr.userId = 1 := by
  constructor
  · exact (C2_user_creation_atomic emptyStore demoInp ⟨"addr", "555"⟩ 1 "gen"
      true false).1.1 (by decide)
  · exact ((C2_user_creation_atomic emptyStore demoInp ⟨"addr", "555"⟩ 1 "gen"
      false false).2.2 (by decide)).2

/-- A paginator always has at least one page. -/
theorem one_le_numPages (count : Nat) : 1 ≤ numPages count := by
  unfold numPages
  rw [Nat.le_div_iff_mul_le (by norm_num)]
  have h := Nat.le_max_left 1 count
  omega

/-- C3 counterexample: with 11 stored items, requesting page 0 returns the
last page (the 11th item), not page 1 as the claim states. -/
theorem C3_pagination_counterexample :
    getPage (List.range 11) (some 0) = [10] ∧
    getPage (List.range 11) (some 1) = [0, 1, 2, 3, 4, 5, 6, 7, 8, 9] ∧
    getPage (List.range 11) (some 0) ≠ getPage (List.range 11) (some 1) := by
  decide

/-- Unfolding `getPageNumber` at an integer page parameter. -/
theorem getPageNumber_some (count : Nat) (n : Int) :
    getPageNumber count (some n) =
      if n < 1 then numPages count
      else if n > (numPages count : Int) then numPages count
      else n.toNat := rfl

/-- Unfolding `getPageNumber` at a missing / non-integer page parameter. -/
theorem getPageNumber_none (count : Nat) : getPageNumber count none = 1 := rfl

/-- Unfolding `getPage` into the drop/take slice. -/
theorem getPage_eq {α : Type} (items : List α) (param : Option Int) :
    getPage items param =
      (items.drop ((getPageNumber items.length param - 1) * 10)).take 10 := rfl

/-- C3 (amended): any out-of-range integer page — above the last page,
zero, or negative — returns the last page's contents; a missing or
non-integer page parameter returns page 1. -/
theorem C3_pagination_out_of_range {α : Type} (items : List α) (n : Int) :
    ((n > (numPages items.length : Int) →
        getPage items (some n) = getPage items (some (numPages items.length)))
      ∧ (n < 1 →
        getPage items (some n) = getPage items (some (numPages items.length))))
    ∧ getPage items none = getPage items (some 1) := by
  have h1 := one_le_numPages items.length
  have hnum : getPageNumber items.length (some (numPages items.length)) =
      numPages items.length := by
    rw [getPageNumber_some, if_neg (by omega), if_neg (by omega)]
    exact Int.toNat_natCast _
  refine ⟨⟨fun hgt => ?_, fun hlt => ?_⟩, ?_⟩
  · rw [getPage_eq, getPage_eq, hnum, getPageNumber_some,
      if_neg (by omega), if_pos hgt]
  · rw [getPage_eq, getPage_eq, hnum, getPageNumber_some, if_pos hlt]
  · rw [getPage_eq, getPage_eq, getPageNumber_none, getPageNumber_some,
      if_neg (by omega), if_neg (by omega)]
    rfl

/-- C3 witness: with 11 stored items (2 pages), page 5 and page −3 both
return the last page's contents. -/
theorem C3_pagination_witness :
    ((5 : Int) > (numPages (List.range 11).length : Int) ∧
      getPage (List.range 11) (some 5) =
        getPage (List.range 11) (some (numPages (List.range 11).length)))
    ∧ ((-3 : Int) < 1 ∧
      getPage (List.range 11) (some (-3)) =
        getPage (List.range 11) (some (numPages (List.range 11).length))) :=
  ⟨⟨by decide, (C3_pagination_out_of_range (List.range 11) 5).1.1 (by decide)⟩,
   ⟨by decide, (C3_pagination_out_of_range (List.range 11) (-3)).1.2 (by decide)⟩⟩

/-- C4: deleting the currently logged-in user's own account is rejected
(on GET and on POST alike) with the store untouched; a POST deletion of a
different existing user removes exactly that user's record. -/
theorem C4_self_deletion (s : Store) (current pk : Nat) (isPost : Bool)
    (u : UserRow) (hfind : s.users.find? (fun v => v.id == pk) = some u) :
    (current = pk → delete_user s current pk isPost = (s, .selfRejected))
    ∧ (current ≠ pk → isPost = true →
        (delete_user s current pk isPost).2 = .deleted ∧
        (∀ v ∈ (delete_user s current pk isPost).1.users, v.id ≠ pk) ∧
        (∀ v ∈ s.users, v.id ≠ pk → v ∈ (delete_user s current pk isPost).1.users)) := by
  unfold delete_user
  rw [hfind]
  constructor
  · intro h
    rw [if_pos (by simp [h])]
  · intro hne hpost
    rw [if_neg (by simp [hne]), if_pos hpost]
    refine ⟨rfl, fun v hv => ?_, fun v hv hvne => ?_⟩
    · have := (List.mem_filter.mp hv).2
      simpa using this
    · exact List.mem_filter.mpr ⟨hv, by simpa using hvne⟩

/-- A demo user. -/
def aliceRow : UserRow := ⟨1, "alice", "alice@mail.com", "pw1"⟩

/-- A second demo user, used as the acting session in deletion tests. -/
def bobRow : UserRow := ⟨2, "bob", "bob@mail.com", "pw2"⟩

/-- A store holding two users with their profiles. -/
def twoUserStore : Store :=
  ⟨[aliceRow, bobRow],
   [⟨1, "12 Main Street", "5550001"⟩, ⟨2, "Nowhere", "7771234"⟩], [], [], []⟩

/-- C4 witness: user 2 deleting themselves is rejected; user 2 deleting
user 1 on POST removes user 1. -/
theorem C4_self_deletion_witness :
    delete_user twoUserStore 2 2 true = (twoUserStore, .selfRejected) ∧
    (delete_user twoUserStore 2 1 true).2 = .deleted ∧
    ∀ v ∈ (delete_user twoUserStore 2 1 true).1.users, v.id ≠ 1 := by
  refine ⟨(C4_self_deletion twoUserStore 2 2 true bobRow (by decide)).1 rfl, ?_⟩
  have h := (C4_self_deletion twoUserStore 2 1 true aliceRow
    (by decide)).2 (by decide) rfl
  exact ⟨h.1, h.2.1⟩

/-- C5: on registration, when password and confirmation are both supplied
and differ, the mismatch error fires, the form is invalid, and the store
is unchanged — no User record is created. -/
theorem C5_password_confirmation (s : Store) (inp : UserFormInput)
    (newId : Nat) (fc fp : Bool)
    (hp : inp.password.isEmpty = false)
    (hc : inp.passwordConfirm.isEmpty = false)
    (hne : inp.password ≠ inp.passwordConfirm) :
    passwordMismatchError inp.password inp.passwordConfirm = true ∧
    simpleRegisterFormValid s.users inp = false ∧
    register s inp newId fc fp = (s, false) := by
  have hmm : passwordMismatchError inp.password inp.passwordConfirm = true := by
    simp [passwordMismatchError, hp, hc, hne]
  have hval : simpleRegisterFormValid s.users inp = false := by
    simp [simpleRegisterFormValid, hmm]
  refine ⟨hmm, hval, ?_⟩
  unfold register
  rw [hval]
  rfl

/-- C5 witness: password "abc" with confirmation "xyz" yields the
mismatch error and leaves the (empty) store without any User. -/
theorem C5_password_confirmation_witness :
    simpleRegisterFormValid emptyStore.users ⟨"carol", "", "abc", "xyz"⟩ = false ∧
    register emptyStore ⟨"carol", "", "abc", "xyz"⟩ 7 false false = (emptyStore, false) :=
  ⟨(C5_password_confirmation emptyStore ⟨"carol", "", "abc", "xyz"⟩ 7 false false
      rfl rfl (by decide)).2.1,
   (C5_password_confirmation emptyStore ⟨"carol", "", "abc", "xyz"⟩ 7 false false
      rfl rfl (by decide)).2.2⟩

/-- A user whose only search-relevant content is the profile phone
number. -/
def c6User : UserRow := ⟨1, "bob", "", "pw"⟩

/-- A store where `c6User`'s phone number contains "555" but no other
field of any entity does. -/
def c6Store : Store := ⟨[c6User], [⟨1, "Nowhere", "5551234"⟩], [], [], []⟩

/-- C6 counterexample: `c6User` matches the Users all-fields set (via the
phone number, as `user_search` with filter "all" shows), yet the global
search returns no users for the same query — the phone field is not part
of the global-search match. -/
theorem C6_phone_counterexample :
    userMatchAll c6Store "555" c6User = true ∧
    c6User ∈ user_search c6Store "555" "all" ∧
    (search c6Store "555" "all").users = some [] ∧
    (search c6Store "555" "users").users = some [] := by decide

/-- C6 (amended): for a non-empty query with type "all" or "users", the
global-search Users results are exactly the first 10 users matching the
case-insensitive substring match over {username, email, profile.address};
the phone number is not consulted, so a user whose only matching field is
the phone number is excluded. -/
theorem C6_global_search_user_fields (s : Store) (q ty : String)
    (hq : q.isEmpty = false) (hty : ty = "all" ∨ ty = "users") :
    ∃ l, (search s q ty).users = some l ∧
      l = (s.users.filter (globalUserMatch s q)).take 10 ∧
      (∀ u ∈ l, icontains u.username q = true ∨ icontains u.email q = true ∨
        ∃ p ∈ s.profiles, p.userId = u.id ∧ icontains p.address q = true) ∧
      (∀ u ∈ s.users, icontains u.username q = false →
        icontains u.email q = false →
        (∀ p ∈ s.profiles, p.userId = u.id → icontains p.address q = false) →
        u ∉ l) := by
  have hcond : (ty == "all" || ty == "users") = true := by
    rcases hty with h | h <;> simp [h]
  have hu : (search s q ty).users =
      some ((s.users.filter (globalUserMatch s q)).take 10) := by
    simp [search, hq, hcond]
  refine ⟨_, hu, rfl, fun u humem => ?_, fun u humem h1 h2 h3 hcontra => ?_⟩
  · have hmatch : globalUserMatch s q u = true :=
      (List.mem_filter.mp (List.mem_of_mem_take humem)).2
    unfold globalUserMatch at hmatch
    rcases Bool.or_eq_true_iff.mp hmatch with h | h
    · rcases Bool.or_eq_true_iff.mp h with h' | h'
      · exact Or.inl h'
      · exact Or.inr (Or.inl h')
    · cases hp : profileOf s u.id with
      | none => rw [hp] at h; cases h
      | some p =>
        rw [hp] at h
        have hpmem : p ∈ s.profiles := List.mem_of_find?_eq_some hp
        have hpid : p.userId = u.id := by simpa using List.find?_some hp
        exact Or.inr (Or.inr ⟨p, hpmem, hpid, h⟩)
  · have hmatch : globalUserMatch s q u = true :=
      (List.mem_filter.mp (List.mem_of_mem_take hcontra)).2
    unfold globalUserMatch at hmatch
    rw [h1, h2] at hmatch
    simp only [Bool.false_or] at hmatch
    cases hp : profileOf s u.id with
    | none => rw [hp] at hmatch; cases hmatch
    | some p =>
      rw [hp] at hmatch
      have hpmem : p ∈ s.profiles := List.mem_of_find?_eq_some hp
      have hpid : p.userId = u.id := by simpa using List.find?_some hp
      have hmatch' : icontains p.address q = true := hmatch
      rw [h3 p hpmem hpid] at hmatch'
      cases hmatch'

/-- C6 witness for the amended claim: on `c6Store` with query "555" the
global search returns the empty user list, excluding the phone-only
match. -/
theorem C6_global_search_user_fields_witness :
    ∃ l, (search c6Store "555" "users").users = some l ∧ c6User ∉ l := by
  obtain ⟨l, hl, -, -, hexcl⟩ :=
    C6_global_search_user_fields c6Store "555" "users" rfl (Or.inr rfl)
  refine ⟨l, hl, hexcl c6User (by decide) (by decide) (by decide) ?_⟩
  intro p hp hpid
  have hpeq : p = ⟨1, "Nowhere", "5551234"⟩ := by simpa [c6Store] using hp
  subst hpeq
  decide

/-- The all-fields user match, characterized over the store's rows. -/
theorem userMatchAll_iff (s : Store) (q : String) (u : UserRow) :
    userMatchAll s q u = true ↔
      icontains u.username q = true ∨ icontains u.email q = true ∨
      ∃ p, profileOf s u.id = some p ∧
        (icontains p.address q = true ∨ icontains p.phoneNumber q = true) := by
  unfold userMatchAll
  cases hp : profileOf s u.id with
  | none => simp [hp]
  | some p => simp [hp, or_assoc]

/-- C7: for a non-empty query, `user_search` with filter "username"
returns exactly the users whose username contains the query
case-insensitively; with filter "all" it returns exactly the union of
username / email / profile-address / profile-phone matches, without
duplicates. -/
theorem C7_user_search_filters (s : Store) (q : String) (u : UserRow)
    (hq : q.isEmpty = false) :
    (u ∈ user_search s q "username" ↔
      u ∈ s.users ∧ icontains u.username q = true)
    ∧ (u ∈ user_search s q "all" ↔
      u ∈ s.users ∧ (icontains u.username q = true ∨ icontains u.email q = true ∨
        ∃ p, profileOf s u.id = some p ∧
          (icontains p.address q = true ∨ icontains p.phoneNumber q = true)))
    ∧ (s.users.Nodup → (user_search s q "all").Nodup) := by
  have husername : user_search s q "username" =
      s.users.filter (fun v => icontains v.username q) := by
    simp [user_search, hq]
  have hall : user_search s q "all" = s.users.filter (userMatchAll s q) := by
    simp [user_search, hq]
  refine ⟨?_, ?_, ?_⟩
  · rw [husername, List.mem_filter]
  · rw [hall, List.mem_filter, userMatchAll_iff]
  · rw [hall]
    exact fun h => h.filter _

/-- C7 witness: in the two-user store, query "ali" with filter "username"
finds alice; with filter "all", query "777" finds bob through the phone
number. -/
theorem C7_user_search_filters_witness :
    aliceRow ∈ user_search twoUserStore "ali" "username" ∧
    bobRow ∈ user_search twoUserStore "777" "all" :=
  ⟨(C7_user_search_filters twoUserStore "ali" aliceRow rfl).1.mpr
      ⟨by decide, by decide⟩,
   (C7_user_search_filters twoUserStore "777" bobRow rfl).2.1.mpr
      ⟨by decide, Or.inr (Or.inr ⟨⟨2, "Nowhere", "7771234"⟩, by decide, Or.inr (by decide)⟩)⟩⟩

/-- A capped, deduplicating slice of a filtered row list: at most 10
results, duplicate-free whenever the table rows are. -/
theorem take10_filter_shape {α : Type} (l : List α) (p : α → Bool) :
    ((l.filter p).take 10).length ≤ 10 ∧
    (l.Nodup → ((l.filter p).take 10).Nodup) :=
  ⟨List.length_take_le _ _,
   fun h => ((l.filter p).take_sublist 10).nodup (h.filter p)⟩

/-- C8: the global search returns no result set at all for an empty
query; for a non-empty query every produced per-type result set holds at
most the first 10 matches, duplicate-free (given duplicate-free tables)
and unpaginated. -/
theorem C8_global_search_shape (s : Store) (q ty : String) :
    (q.isEmpty = true → search s q ty = ⟨none, none, none, none⟩)
    ∧ (∀ l, (search s q ty).users = some l →
        l = (s.users.filter (globalUserMatch s q)).take 10 ∧
        l.length ≤ 10 ∧ (s.users.Nodup → l.Nodup))
    ∧ (∀ l, (search s q ty).books = some l →
        l = (s.books.filter (bookMatchAll q)).take 10 ∧
        l.length ≤ 10 ∧ (s.books.Nodup → l.Nodup))
    ∧ (∀ l, (search s q ty).authors = some l →
        l = (s.authors.filter (fun a => icontains a.name q)).take 10 ∧
        l.length ≤ 10 ∧ (s.authors.Nodup → l.Nodup))
    ∧ (∀ l, (search s q ty).categories = some l →
        l = (s.categories.filter (fun c => icontains c.name q)).take 10 ∧
        l.length ≤ 10 ∧ (s.categories.Nodup → l.Nodup)) := by
  by_cases hq : q.isEmpty = true
  · refine ⟨fun _ => by simp [search, hq], ?_, ?_, ?_, ?_⟩ <;>
      intro l hl <;> simp [search, hq] at hl
  · rw [Bool.not_eq_true] at hq
    refine ⟨fun h => absurd h (by simp [hq]), ?_, ?_, ?_, ?_⟩
    · intro l hl
      by_cases hc : (ty == "all" || ty == "users") = true
      · simp [search, hq, hc] at hl
        subst hl
        exact ⟨rfl, (take10_filter_shape _ _).1, (take10_filter_shape _ _).2⟩
      · simp [search, hq, hc] at hl
    · intro l hl
      by_cases hc : (ty == "all" || ty == "books") = true
      · simp [search, hq, hc] at hl
        subst hl
        exact ⟨rfl, (take10_filter_shape _ _).1, (take10_filter_shape _ _).2⟩
      · simp [search, hq, hc] at hl
    · intro l hl
      by_cases hc : (ty == "all" || ty == "authors") = true
      · simp [search, hq, hc] at hl
        subst hl
        exact ⟨rfl, (take10_filter_shape _ _).1, (take10_filter_shape _ _).2⟩
      · simp [search, hq, hc] at hl
    · intro l hl
      by_cases hc : (ty == "all" || ty == "categories") = true
      · simp [search, hq, hc] at hl
        subst hl
        exact ⟨rfl, (take10_filter_shape _ _).1, (take10_filter_shape _ _).2⟩
      · simp [search, hq, hc] at hl

/-- C8 witness: empty query yields no result sets; a non-empty query on
the two-user store caps the Users results at 10. -/
theorem C8_global_search_shape_witness :
    search twoUserStore "" "all" = ⟨none, none, none, none⟩ ∧
    ((search twoUserStore "a" "all").users.getD []).length ≤ 10 := by
  refine ⟨(C8_global_search_shape twoUserStore "" "all").1 rfl, ?_⟩
  exact ((C8_global_search_shape twoUserStore "a" "all").2.1 _ (by decide)).2.1

/-- C9: the password-mismatch error of the user forms needs both password
fields non-empty, so an edit submitting a non-empty password with an
empty confirmation validates and sets the user's password to the
submitted value with no confirmation check. -/
theorem C9_edit_password_without_confirmation (s : Store) (pk : Nat)
    (inp : UserFormInput) (prof : ProfileFormInput) (user : UserRow)
    (hfind : s.users.find? (fun u => u.id == pk) = some user)
    (hpw : inp.password.isEmpty = false)
    (hpc : inp.passwordConfirm.isEmpty = true)
    (hune : inp.username.isEmpty = false)
    (hulen : inp.username.length ≤ 150)
    (husr : userFormCleanUsernameError s.users inp.username (some pk) = false) :
    (∀ p c : String, p.isEmpty = true ∨ c.isEmpty = true →
      passwordMismatchError p c = false)
    ∧ (edit_user s pk inp prof).2 = true
    ∧ ∃ u' ∈ (edit_user s pk inp prof).1.users,
        u'.id = pk ∧ u'.password = inp.password := by
  have hvalid : userFormValid s.users (some pk) inp = true := by
    simp [userFormValid, passwordMismatchError, hune, hulen, husr, hpc]
  have humem : user ∈ s.users := List.mem_of_find?_eq_some hfind
  have huid : (user.id == pk) = true := by simpa using List.find?_some hfind
  refine ⟨fun p c h => by rcases h with h | h <;> simp [passwordMismatchError, h],
    ?_, ?_⟩
  · unfold edit_user
    simp only [hfind, hvalid, if_true]
  · unfold edit_user
    simp only [hfind, hvalid, if_true]
    refine ⟨{ id := pk, username := inp.username, email := inp.email,
              password := if inp.password.isEmpty then user.password else inp.password },
      List.mem_map.mpr ⟨user, humem, by rw [if_pos huid]⟩, rfl, by simp [hpw]⟩

/-- C9 witness: editing user 1, password "newpw" with empty confirmation
succeeds and stores "newpw". -/
theorem C9_edit_password_without_confirmation_witness :
    (edit_user twoUserStore 1 ⟨"alice", "alice@mail.com", "newpw", ""⟩
        ⟨"addr", "555"⟩).2 = true ∧
    ∃ u' ∈ (edit_user twoUserStore 1 ⟨"alice", "alice@mail.com", "newpw", ""⟩
        ⟨"addr", "555"⟩).1.users, u'.id = 1 ∧ u'.password = "newpw" := by
  have h := C9_edit_password_without_confirmation twoUserStore 1
    ⟨"alice", "alice@mail.com", "newpw", ""⟩ ⟨"addr", "555"⟩ aliceRow
    (by decide) rfl rfl rfl (by decide) (by decide)
  exact ⟨h.2.1, h.2.2⟩

/-- C10: a per-entity search with an unrecognized filter value behaves
exactly as filter "all" for that entity type: the code's final `else`
branch applies the all-fields match. -/
theorem C10_unknown_filter_behaves_as_all (s : Store) (q fu fb : String)
    (hu1 : fu ≠ "username") (hu2 : fu ≠ "email") (hu3 : fu ≠ "address")
    (hb1 : fb ≠ "title") (hb2 : fb ≠ "author") (hb3 : fb ≠ "category") :
    user_search s q fu = user_search s q "all" ∧
    book_search s q fb = book_search s q "all" := by
  have e1 : (fu == "username") = false := beq_eq_false_iff_ne.mpr hu1
  have e2 : (fu == "email") = false := beq_eq_false_iff_ne.mpr hu2
  have e3 : (fu == "address") = false := beq_eq_false_iff_ne.mpr hu3
  have f1 : (fb == "title") = false := beq_eq_false_iff_ne.mpr hb1
  have f2 : (fb == "author") = false := beq_eq_false_iff_ne.mpr hb2
  have f3 : (fb == "category") = false := beq_eq_false_iff_ne.mpr hb3
  constructor
  · simp [user_search, e1, e2, e3]
  · simp [book_search, f1, f2, f3]

/-- C10 witness: the unrecognized filter "banana" searches users and
books exactly as "all" does. -/
theorem C10_unknown_filter_behaves_as_all_witness :
    user_search twoUserStore "ali" "banana" = user_search twoUserStore "ali" "all" ∧
    book_search twoUserStore "ali" "banana" = book_search twoUserStore "ali" "all" :=
  C10_unknown_filter_behaves_as_all twoUserStore "ali" "banana" "banana"
    (by decide) (by decide) (by decide) (by decide) (by decide) (by decide)

end MyApp
